import Mathlib

/-!
# OpenKanban — verification of the daemon protocol, broker and board store

Shallow embedding of the Go daemon (`internal/daemon/protocol.go`,
`internal/daemon/server.go`, `internal/daemon/session.go`,
`internal/terminal/pane.go`) and of the TypeScript board store
(`packages/server/src/store/board.ts`, workflow and shared types).

Bytes are modelled as `Nat` (values < 256 on real inputs); Go byte strings
as `List Nat`. Fallible decoding returns `Except`. External effects
(PTY spawn success, wall-clock time, git worktree creation, UUIDs) enter
as explicit parameters.
-/

namespace OpenKanban

/-! ## Wire protocol (`internal/daemon/protocol.go`)

Frame layout: `[type:1][length:4 big-endian][data:length]`. -/

abbrev Bytes := List Nat

def MsgData : Nat := 0x01
def MsgResize : Nat := 0x02
def MsgExit : Nat := 0x03
def MsgAttach : Nat := 0x10
def MsgCreate : Nat := 0x11
def MsgSessionOK : Nat := 0x12
def MsgSessionError : Nat := 0x13
def MsgDetach : Nat := 0x14
def MsgList : Nat := 0x15
def MsgListResponse : Nat := 0x16

/-- The message-type codes defined by the protocol file. -/
def definedMsgTypes : List Nat :=
  [MsgData, MsgResize, MsgExit, MsgAttach, MsgCreate, MsgSessionOK,
   MsgSessionError, MsgDetach, MsgList, MsgListResponse]

/-- The subset of types `Server.handleClient` dispatches on (its `switch`
has no `default` case; everything else is silently dropped). -/
def handledMsgTypes : List Nat :=
  [MsgCreate, MsgAttach, MsgDetach, MsgData, MsgResize, MsgList]

structure Message where
  type : Nat
  data : Bytes
deriving DecidableEq

/-- Errors `ReadMessage` can produce. `tooLarge n` carries the offending
length, mirroring `"message too large: %d bytes"`. -/
inductive ReadErr
| shortType
| shortLength
| tooLarge (n : Nat)
| shortData
deriving DecidableEq

/-- 4-byte big-endian encoding used by `binary.Write(w, BigEndian, length)`. -/
def be32 (n : Nat) : Bytes :=
  [n / 2 ^ 24 % 256, n / 2 ^ 16 % 256, n / 2 ^ 8 % 256, n % 256]

/-- `WriteMessage`: type byte, big-endian length, then the payload
(the code skips the payload write when it is empty, which emits the
same bytes as appending the empty list). -/
def writeMessage (m : Message) : Bytes :=
  m.type :: be32 m.data.length ++ m.data

/-- `io.ReadFull` for `n` bytes: the first `n` bytes and the remainder,
or `none` when the stream is too short. -/
def takeExact : Nat → Bytes → Option (Bytes × Bytes)
  | 0, s => some ([], s)
  | _ + 1, [] => none
  | n + 1, b :: s =>
    match takeExact n s with
    | some (p, r) => some (b :: p, r)
    | none => none

/-- The `1<<20` frame-size limit from `ReadMessage`. -/
def maxFrameLen : Nat := 2 ^ 20

/-- `ReadMessage`: read one type byte, four length bytes, reject
`length > 1<<20`, then read `length` payload bytes. The type byte is
never inspected. -/
def readMessage (s : Bytes) : Except ReadErr (Message × Bytes) :=
  match s with
  | [] => .error .shortType
  | t :: rest =>
    match rest with
    | b0 :: b1 :: b2 :: b3 :: rest2 =>
      let length := ((b0 * 256 + b1) * 256 + b2) * 256 + b3
      if length > maxFrameLen then .error (.tooLarge length)
      else
        match takeExact length rest2 with
        | some (payload, rest3) => .ok (⟨t, payload⟩, rest3)
        | none => .error .shortData
    | _ => .error .shortLength

theorem takeExact_append (p r : Bytes) : takeExact p.length (p ++ r) = some (p, r) := by
  induction p with
  | nil => rfl
  | cons b tl ih => simp [takeExact, ih]

/-- Reading back the frame header written for a length below `2^32`
recovers that length. -/
theorem be32_decode (n : Nat) (h : n < 2 ^ 32) :
    ((n / 2 ^ 24 % 256 * 256 + n / 2 ^ 16 % 256) * 256 + n / 2 ^ 8 % 256) * 256 + n % 256 = n := by
  omega

/-- Round-trip helper: a written frame followed by any residue decodes to
the original message and that residue. -/
theorem readMessage_writeMessage (m : Message) (rest : Bytes)
    (h : m.data.length ≤ maxFrameLen) :
    readMessage (writeMessage m ++ rest) = .ok (m, rest) := by
  obtain ⟨t, d⟩ := m
  have h' : d.length ≤ 2 ^ 20 := h
  have hlen : d.length < 2 ^ 32 := by omega
  simp only [writeMessage, be32, List.cons_append, List.append_assoc, readMessage]
  rw [be32_decode d.length hlen]
  rw [if_neg (by simp only [maxFrameLen]; omega : ¬ d.length > maxFrameLen)]
  rw [List.nil_append, takeExact_append]

/-! ## Create/attach payload codecs (`internal/daemon/protocol.go`) -/

/-- `splitNull`: split a payload at NUL bytes; the final segment is kept
only when non-empty (the Go loop appends `data[start:]` only when
`start < len(data)`). -/
def splitNull : Bytes → List Bytes
  | [] => []
  | b :: rest =>
    if b = 0 then [] :: splitNull rest
    else
      match splitNull rest with
      | [] => [[b]]
      | p :: ps => (b :: p) :: ps

structure CreateReq where
  sessionID : Bytes
  workdir : Bytes
  command : Bytes
  args : List Bytes
deriving DecidableEq

/-- `DecodeCreate`: fields are the NUL-separated parts in order
(session ID, workdir, command, args); missing parts decode to the
empty string. -/
def decodeCreate (data : Bytes) : CreateReq :=
  let parts := splitNull data
  { sessionID := parts.getD 0 []
    workdir := parts.getD 1 []
    command := parts.getD 2 []
    args := parts.drop 3 }

/-- `EncodeCreate`: the parts joined with single NUL separators. -/
def joinNull : List Bytes → Bytes
  | [] => []
  | [x] => x
  | x :: y :: xs => x ++ 0 :: joinNull (y :: xs)

/-- `DecodeAttach` is `string(data)`: the payload bytes are the session ID. -/
def decodeAttach (data : Bytes) : Bytes := data

/-! ## Broker state machine (`internal/daemon/server.go`)

One `Session` per registry entry; `clientConn.sessionID` with `[]`
standing for Go's `""` (unset). Connections are identified by `Nat`
tokens. PTY spawn success is an external input (`spawnOk`), standing
for the result of `pty.Start` inside `Session.Start`. -/

structure Session where
  command : Bytes
  args : List Bytes
  workdir : Bytes
  running : Bool
deriving DecidableEq

structure ClientConn where
  sessionID : Bytes
deriving DecidableEq

structure ServerState where
  sessions : List (Bytes × Session)
  clients : List (Nat × ClientConn)
deriving DecidableEq

/-- Go map read `s.sessions[id]` on the registry. -/
def lookupSession : List (Bytes × Session) → Bytes → Option Session
  | [], _ => none
  | (k, v) :: rest, id => if k = id then some v else lookupSession rest id

/-- Go map read `s.clients[conn]`. -/
def lookupClient : List (Nat × ClientConn) → Nat → Option ClientConn
  | [], _ => none
  | (k, v) :: rest, c => if k = c then some v else lookupClient rest c

/-- `client := s.clients[conn]; if client != nil { client.sessionID = sid }`:
update the connection's attachment only when the connection is present. -/
def bindClient : List (Nat × ClientConn) → Nat → Bytes → List (Nat × ClientConn)
  | [], _, _ => []
  | (k, v) :: rest, c, sid =>
    if k = c then (k, ⟨sid⟩) :: rest else (k, v) :: bindClient rest c sid

/-- Error replies the server sends (`SESSION_ERROR` payload texts):
`invalidCreate` is `"invalid create request"`, `emptySessionID` is
`"empty session ID"`, `notFound id` is `"session not found: " + id`,
`notRunning id` is `"session not running: " + id`, `startFailed` is the
error text from `NewSession`/`Session.Start`. -/
inductive ErrMsg
| invalidCreate
| emptySessionID
| notFound (id : Bytes)
| notRunning (id : Bytes)
| startFailed
deriving DecidableEq

inductive Reply
| sessionOK
| sessionError (e : ErrMsg)
| dataOut (d : Bytes)
| exitMsg
| listResponse (d : Bytes)
deriving DecidableEq

abbrev Outputs := List (Nat × Reply)

/-- `Server.handleCreate`. Validation first; then existing-ID attach;
otherwise spawn (success decided by the external `spawnOk`) and
register. -/
def handleCreate (st : ServerState) (c : Nat) (data : Bytes) (spawnOk : Bool) :
    ServerState × Outputs :=
  let req := decodeCreate data
  if req.sessionID = [] ∨ req.command = [] then
    (st, [(c, .sessionError .invalidCreate)])
  else
    match lookupSession st.sessions req.sessionID with
    | some _ =>
      ({ st with clients := bindClient st.clients c req.sessionID }, [(c, .sessionOK)])
    | none =>
      if spawnOk then
        ({ sessions := st.sessions ++ [(req.sessionID, ⟨req.command, req.args, req.workdir, true⟩)]
           clients := bindClient st.clients c req.sessionID }, [(c, .sessionOK)])
      else
        (st, [(c, .sessionError .startFailed)])

/-- `Server.handleAttach`. -/
def handleAttach (st : ServerState) (c : Nat) (data : Bytes) :
    ServerState × Outputs :=
  let sessionID := decodeAttach data
  if sessionID = [] then
    (st, [(c, .sessionError .emptySessionID)])
  else
    match lookupSession st.sessions sessionID with
    | none => (st, [(c, .sessionError (.notFound sessionID))])
    | some s =>
      if s.running then
        ({ st with clients := bindClient st.clients c sessionID }, [(c, .sessionOK)])
      else
        (st, [(c, .sessionError (.notRunning sessionID))])

/-- `Server.handleDetach`: clear the attachment when the connection is
present; no reply. -/
def handleDetach (st : ServerState) (c : Nat) : ServerState × Outputs :=
  ({ st with clients := bindClient st.clients c [] }, [])

/-- `Server.handleData`: forwards to the PTY (external); no server-state
change and no reply, also when the attachment is stale. -/
def handleData (st : ServerState) (_c : Nat) (_data : Bytes) : ServerState × Outputs :=
  (st, [])

/-- `Server.handleResize`: resizes the PTY (external); no server-state
change and no reply. -/
def handleResize (st : ServerState) (_c : Nat) (_data : Bytes) : ServerState × Outputs :=
  (st, [])

/-- `Server.handleList`: IDs of running sessions, NUL-joined. -/
def handleList (st : ServerState) (c : Nat) : ServerState × Outputs :=
  let ids := (st.sessions.filter (fun p => p.2.running)).map (fun p => p.1)
  (st, [(c, .listResponse (joinNull ids))])

/-- The `switch msg.Type` of `Server.handleClient`: a frame whose type is
none of the handled cases falls through with no effect and no reply. -/
def dispatch (st : ServerState) (c : Nat) (m : Message) (spawnOk : Bool) :
    ServerState × Outputs :=
  if m.type = MsgCreate then handleCreate st c m.data spawnOk
  else if m.type = MsgAttach then handleAttach st c m.data
  else if m.type = MsgDetach then handleDetach st c
  else if m.type = MsgData then handleData st c m.data
  else if m.type = MsgResize then handleResize st c m.data
  else if m.type = MsgList then handleList st c
  else (st, [])

/-- `Server.sessionWaitLoop` after `Session.Wait` returns: broadcast one
`EXIT` frame to every connection attached to the session, then delete the
session from the registry. Client attachments are not touched. -/
def sessionWaitLoop (st : ServerState) (id : Bytes) : ServerState × Outputs :=
  let subs := (st.clients.filter (fun p => decide (p.2.sessionID = id))).map
    (fun p => (p.1, Reply.exitMsg))
  ({ st with sessions := st.sessions.filter (fun p => decide (¬ p.1 = id)) }, subs)

/-- External events driving the broker: a connection arriving
(`Server.Accept` inserts a fresh `clientConn`), a connection closing
(`removeClient`), a decoded inbound frame, and a session's child
process exiting. -/
inductive Event
| connect (c : Nat)
| disconnect (c : Nat)
| frame (c : Nat) (m : Message) (spawnOk : Bool)
| exit (id : Bytes)

def step (st : ServerState) (e : Event) : ServerState :=
  match e with
  | .connect c => { st with clients := st.clients ++ [(c, ⟨[]⟩)] }
  | .disconnect c => { st with clients := st.clients.filter (fun p => decide (¬ p.1 = c)) }
  | .frame c m spawnOk => (dispatch st c m spawnOk).1
  | .exit id => (sessionWaitLoop st id).1

def initState : ServerState := ⟨[], []⟩

def run (es : List Event) : ServerState := es.foldl step initState

/-- The spec's §invariant 1: every connection's attachment is unset or
names a registry entry. -/
def attachedOK (st : ServerState) : Bool :=
  st.clients.all (fun p => p.2.sessionID = [] || (lookupSession st.sessions p.2.sessionID).isSome)

/-! ## Child-process environments (`internal/daemon/session.go`,
`internal/terminal/pane.go`)

`os.Environ` entries are `(key, value)` pairs; keys contain no `=`, so
`strings.Split(e, "=")[0]` is the key. Both spawn paths define a
function named `buildCleanEnv`; they differ. -/

abbrev EnvEntry := String × String

namespace DaemonSession

/-- `buildCleanEnv` from `internal/daemon/session.go`: the daemon's
environment with `TERM=xterm-256color` appended. Nothing is removed. -/
def buildCleanEnv (env : List EnvEntry) : List EnvEntry :=
  env ++ [("TERM", "xterm-256color")]

end DaemonSession

namespace Pane

/-- The key tests from `buildCleanEnv` in `internal/terminal/pane.go`.
Go's `strings.HasPrefix` compares bytes; on the ASCII literals used here
that is character-list prefixing. -/
def isAgentKey (k : String) : Bool :=
  k == "OPENCODE" || "OPENCODE_".data.isPrefixOf k.data ||
  k == "CLAUDE" || "CLAUDE_".data.isPrefixOf k.data ||
  k == "GEMINI" || "GEMINI_".data.isPrefixOf k.data ||
  k == "CODEX" || "CODEX_".data.isPrefixOf k.data

/-- `buildCleanEnv` from `internal/terminal/pane.go`: drop agent-family
variables, append `TERM`, and tag the session name when present. -/
def buildCleanEnv (env : List EnvEntry) (sessionName : String) : List EnvEntry :=
  (env.filter (fun e => !isAgentKey e.1)) ++ [("TERM", "xterm-256color")] ++
    (if sessionName ≠ "" then [("OPENKANBAN_SESSION", sessionName)] else [])

end Pane

/-! ## Board store (`packages/server/src/store/board.ts`,
`packages/server/src/store/workflow.ts`, shared `types.ts`)

Timestamps (`new Date().toISOString()`), UUIDs and git results are
external inputs passed as parameters. Optional TS fields are `Option`;
`none` is `undefined` (falsy, as are the empty strings these fields
never hold). -/

inductive TicketStatus
| backlog
| inProgress
| done
| archived
deriving DecidableEq

structure Ticket where
  id : String
  title : String
  status : TicketStatus
  worktreePath : Option String
  branchName : Option String
  baseBranch : Option String
  createdAt : String
  updatedAt : String
  startedAt : Option String
  completedAt : Option String
deriving DecidableEq

/-- A `Partial<Ticket>` patch as used by the store: `none` means the
field is absent from the patch (spread keeps the existing value). -/
structure TicketPatch where
  status : Option TicketStatus := none
  worktreePath : Option String := none
  branchName : Option String := none
  baseBranch : Option String := none
  startedAt : Option String := none
  completedAt : Option String := none

/-- `BoardStore.getTicket`: first ticket with the given id. -/
def getTicket (ts : List Ticket) (tid : String) : Option Ticket :=
  ts.find? (fun t => t.id == tid)

/-- The spread `{ ...existing, ...patch, id, createdAt, updatedAt: now }`
inside `BoardStore.updateTicket`. -/
def applyPatch (t : Ticket) (p : TicketPatch) (now : String) : Ticket :=
  { id := t.id
    title := t.title
    status := match p.status with | some v => v | none => t.status
    worktreePath := match p.worktreePath with | some v => some v | none => t.worktreePath
    branchName := match p.branchName with | some v => some v | none => t.branchName
    baseBranch := match p.baseBranch with | some v => some v | none => t.baseBranch
    createdAt := t.createdAt
    updatedAt := now
    startedAt := match p.startedAt with | some v => some v | none => t.startedAt
    completedAt := match p.completedAt with | some v => some v | none => t.completedAt }

/-- `BoardStore.updateTicket`: replace the first ticket with the given id
by its patched form; no change when the id is absent. -/
def updateTicket : List Ticket → String → TicketPatch → String → List Ticket
  | [], _, _, _ => []
  | t :: rest, tid, p, now =>
    if t.id = tid then applyPatch t p now :: rest
    else t :: updateTicket rest tid p now

/-- `BoardStore.moveTicket`: patch the status; stamp `startedAt` only
when moving to in_progress with `startedAt` unset, `completedAt` only
when moving to done with `completedAt` unset. -/
def moveTicket (ts : List Ticket) (tid : String) (status : TicketStatus) (now : String) :
    List Ticket :=
  match getTicket ts tid with
  | none => ts
  | some t =>
    updateTicket ts tid
      { status := some status
        startedAt := if status = .inProgress ∧ t.startedAt = none then some now else none
        completedAt := if status = .done ∧ t.completedAt = none then some now else none }
      now

/-- `startTicketWork` (workflow): when the ticket has no worktree, try to
create one (`worktreeOk` is the external git result) and stamp the
worktree fields; in every branch the ticket is patched to in_progress
with `startedAt := now`, unconditionally. Agent auto-spawn does not
touch the board. `wtPath`, `branch`, `base` are the externally computed
worktree path, branch name and resolved base branch. -/
def startTicketWork (ts : List Ticket) (tid : String) (now : String)
    (worktreeOk : Bool) (wtPath branch base : String) : List Ticket :=
  match getTicket ts tid with
  | none => ts
  | some t =>
    if t.worktreePath = none then
      if worktreeOk then
        updateTicket ts tid
          { worktreePath := some wtPath, branchName := some branch, baseBranch := some base
            status := some .inProgress, startedAt := some now } now
      else
        updateTicket ts tid { status := some .inProgress, startedAt := some now } now
    else
      updateTicket ts tid { status := some .inProgress, startedAt := some now } now

/-- `moveTicketWithWorkflow`: transitions into in_progress from another
status go through `startTicketWork`; everything else through
`BoardStore.moveTicket`. -/
def moveTicketWithWorkflow (ts : List Ticket) (tid : String) (newStatus : TicketStatus)
    (now : String) (worktreeOk : Bool) (wtPath branch base : String) : List Ticket :=
  match getTicket ts tid with
  | none => ts
  | some t =>
    if newStatus = .inProgress ∧ t.status ≠ .inProgress then
      startTicketWork ts tid now worktreeOk wtPath branch base
    else
      moveTicket ts tid newStatus now

/-! ## Board load (`BoardStore.load`, shared `createBoard`) -/

structure Column where
  id : String
  name : String
  key : TicketStatus
deriving DecidableEq

structure BoardSettings where
  defaultAgent : String
  worktreeBase : String
  baseBranch : String
  autoSpawn : Bool
deriving DecidableEq

/-- `DEFAULT_COLUMNS` from shared `types.ts`. -/
def DEFAULT_COLUMNS : List Column :=
  [⟨"backlog", "Backlog", .backlog⟩,
   ⟨"in_progress", "In Progress", .inProgress⟩,
   ⟨"done", "Done", .done⟩]

/-- `DEFAULT_SETTINGS` from shared `types.ts`. -/
def DEFAULT_SETTINGS : BoardSettings :=
  ⟨"opencode", ".worktrees", "main", false⟩

/-- The board as `load` returns it. `id`/`name` stay optional: `load`
never fills them in on a partially populated file. -/
structure Board where
  id : Option String
  name : Option String
  columns : List Column
  tickets : List Ticket
  settings : BoardSettings
deriving DecidableEq

/-- `createBoard(name)`; the UUID is an external input. -/
def createBoard (uuid name : String) : Board :=
  ⟨some uuid, some name, DEFAULT_COLUMNS, [], DEFAULT_SETTINGS⟩

/-- What `JSON.parse` of the board file can yield: each `Board` field
present or missing. -/
structure ParsedBoard where
  id : Option String
  name : Option String
  columns : Option (List Column)
  tickets : Option (List Ticket)
  settings : Option BoardSettings

/-- The states of the on-disk board file as `load` observes them:
missing file, a read that throws, a parse that throws, or a parsed
value with possibly-missing fields. -/
inductive BoardFile
| absent
| readFails
| parseFails
| parsed (p : ParsedBoard)

/-- `BoardStore.load`: the `try` body returns the parsed value with
columns defaulted when missing or empty, settings and tickets defaulted
when missing; the `catch` and the missing-file path fall through to
`createBoard("OpenKanban")`. Total by construction — every file state
yields a board. -/
def load (file : BoardFile) (uuid : String) : Board :=
  match file with
  | .parsed p =>
    { id := p.id
      name := p.name
      columns :=
        match p.columns with
        | some cs => if cs.length = 0 then DEFAULT_COLUMNS else cs
        | none => DEFAULT_COLUMNS
      settings := p.settings.getD DEFAULT_SETTINGS
      tickets := p.tickets.getD [] }
  | _ => createBoard uuid "OpenKanban"

/-! ## Theorems -/

/-- C3: a frame whose length field is exactly 1 MiB is accepted with its
full payload read; any length field strictly above 1 MiB fails with the
frame-too-large error carrying that length, whatever bytes follow the
header (the payload is never read). -/
theorem frame_size_limit :
    (∀ (t : Nat) (payload rest : Bytes), payload.length = 2 ^ 20 →
      readMessage (t :: be32 (2 ^ 20) ++ payload ++ rest) =
        .ok (⟨t, payload⟩, rest)) ∧
    (∀ (t n : Nat) (rest : Bytes), 2 ^ 20 < n → n < 2 ^ 32 →
      readMessage (t :: be32 n ++ rest) = .error (.tooLarge n)) := by
  constructor
  · intro t payload rest h
    have hle : payload.length ≤ maxFrameLen := by simp [maxFrameLen, h]
    have hrt := readMessage_writeMessage ⟨t, payload⟩ rest hle
    simpa [writeMessage, h] using hrt
  · intro t n rest h1 h2
    simp only [be32, List.cons_append, List.nil_append, readMessage]
    rw [be32_decode n h2]
    rw [if_pos (by simp only [maxFrameLen]; omega)]

/-- C3 witness: a 1 MiB frame decodes; a frame announcing 1 MiB + 1
is rejected. -/
theorem frame_size_limit_witness :
    readMessage (7 :: be32 (2 ^ 20) ++ List.replicate (2 ^ 20) 65 ++ []) =
      .ok (⟨7, List.replicate (2 ^ 20) 65⟩, []) ∧
    readMessage (7 :: be32 (2 ^ 20 + 1) ++ []) = .error (.tooLarge (2 ^ 20 + 1)) :=
  ⟨frame_size_limit.1 7 (List.replicate (2 ^ 20) 65) [] (by rw [List.length_replicate]),
   frame_size_limit.2 7 (2 ^ 20 + 1) [] (by norm_num) (by norm_num)⟩

/-- C4: encoding any message whose type is a byte and whose payload holds
at most 1 MiB of bytes, then decoding the produced stream, returns the
same type and payload (and consumes exactly the frame). -/
theorem write_read_roundtrip (m : Message) (rest : Bytes)
    (_htype : m.type < 256) (_hbytes : ∀ b ∈ m.data, b < 256)
    (hlen : m.data.length ≤ 2 ^ 20) :
    readMessage (writeMessage m ++ rest) = .ok (m, rest) :=
  readMessage_writeMessage m rest hlen

/-- C4 witness: round trip at a concrete frame. -/
theorem write_read_roundtrip_witness :
    readMessage (writeMessage ⟨MsgCreate, [1, 2, 3]⟩ ++ [9]) =
      .ok (⟨MsgCreate, [1, 2, 3]⟩, [9]) :=
  write_read_roundtrip ⟨MsgCreate, [1, 2, 3]⟩ [9] (by norm_num [MsgCreate])
    (by decide) (by norm_num)

/-- C5 counterexample: `0xFF` is none of the defined message-type codes,
yet decoding a well-framed `0xFF` frame succeeds with a message — it
does not fail with an unknown-type error (no such error exists in
`ReadMessage`). -/
theorem unknown_type_counterexample :
    readMessage [0xFF, 0, 0, 0, 0] = .ok (⟨0xFF, []⟩, []) ∧
    0xFF ∉ definedMsgTypes := by
  exact ⟨rfl, by decide⟩

/-- C5 (amended): decoding never inspects the type byte — any type with a
well-formed frame decodes successfully; a frame whose type is outside
the set `handleClient` dispatches on is silently dropped: no state
change and no reply. -/
theorem unknown_type_ignored :
    (∀ (t : Nat) (data rest : Bytes), data.length ≤ 2 ^ 20 →
      readMessage (t :: be32 data.length ++ data ++ rest) = .ok (⟨t, data⟩, rest)) ∧
    (∀ (st : ServerState) (c : Nat) (m : Message) (spawnOk : Bool),
      m.type ∉ handledMsgTypes → dispatch st c m spawnOk = (st, [])) := by
  constructor
  · intro t data rest h
    have hrt := readMessage_writeMessage ⟨t, data⟩ rest h
    simpa [writeMessage] using hrt
  · intro st c m spawnOk h
    simp only [handledMsgTypes, List.mem_cons, List.not_mem_nil, or_false, not_or] at h
    obtain ⟨h1, h2, h3, h4, h5, h6⟩ := h
    simp [dispatch, h1, h2, h3, h4, h5, h6]

/-- C5 amended witness: the unknown type `0xFF` decodes and is dropped by
the dispatcher. -/
theorem unknown_type_ignored_witness :
    readMessage (0xFF :: be32 (List.length ([] : Bytes)) ++ [] ++ []) =
      .ok (⟨0xFF, []⟩, []) ∧
    dispatch initState 0 ⟨0xFF, []⟩ true = (initState, []) :=
  ⟨unknown_type_ignored.1 0xFF [] [] (by norm_num),
   unknown_type_ignored.2 initState 0 ⟨0xFF, []⟩ true (by decide)⟩

/-- A CREATE frame reaches `handleCreate`. -/
theorem dispatch_create (st : ServerState) (c : Nat) (data : Bytes) (spawnOk : Bool) :
    dispatch st c ⟨MsgCreate, data⟩ spawnOk = handleCreate st c data spawnOk := rfl

/-- An ATTACH frame reaches `handleAttach`. -/
theorem dispatch_attach (st : ServerState) (c : Nat) (data : Bytes) (spawnOk : Bool) :
    dispatch st c ⟨MsgAttach, data⟩ spawnOk = handleAttach st c data := rfl

/-- C1 counterexample: after session `[115]` (= "s") is created, a second
CREATE frame whose payload decodes to that same session ID but to an
empty command is answered with `SESSION_ERROR("invalid create request")`
and leaves the state untouched — the claim's "replies SESSION_OK and
binds the attachment" fails for this frame even though its session ID is
present in the registry. -/
theorem create_existing_counterexample :
    (lookupSession (run [Event.connect 0,
        Event.frame 0 ⟨MsgCreate, [115, 0, 0, 115, 104]⟩ true,
        Event.connect 1]).sessions [115]).isSome = true ∧
    dispatch (run [Event.connect 0,
        Event.frame 0 ⟨MsgCreate, [115, 0, 0, 115, 104]⟩ true,
        Event.connect 1]) 1 ⟨MsgCreate, [115]⟩ true =
      (run [Event.connect 0,
        Event.frame 0 ⟨MsgCreate, [115, 0, 0, 115, 104]⟩ true,
        Event.connect 1],
       [(1, Reply.sessionError .invalidCreate)]) := by
  decide

/-- C1 (amended): a CREATE frame that passes validation (non-empty
decoded session ID and command) and whose session ID is already in the
registry starts, replaces and modifies no session: the registry is
unchanged, only the caller's attachment is bound, and the reply is
`SESSION_OK` — whatever workdir, command, args and spawn outcome the
frame carries. A valid CREATE for a fresh ID whose spawn succeeds also
replies `SESSION_OK`, so the original creator and the later caller both
receive `SESSION_OK`. -/
theorem create_existing_attaches :
    (∀ (st : ServerState) (c : Nat) (data : Bytes) (spawnOk : Bool) (s : Session),
      (decodeCreate data).sessionID ≠ [] → (decodeCreate data).command ≠ [] →
      lookupSession st.sessions (decodeCreate data).sessionID = some s →
      dispatch st c ⟨MsgCreate, data⟩ spawnOk =
        ({ st with clients := bindClient st.clients c (decodeCreate data).sessionID },
         [(c, Reply.sessionOK)])) ∧
    (∀ (st : ServerState) (c : Nat) (data : Bytes),
      (decodeCreate data).sessionID ≠ [] → (decodeCreate data).command ≠ [] →
      lookupSession st.sessions (decodeCreate data).sessionID = none →
      (dispatch st c ⟨MsgCreate, data⟩ true).2 = [(c, Reply.sessionOK)]) := by
  constructor
  · intro st c data spawnOk s h1 h2 h3
    rw [dispatch_create]
    simp only [handleCreate]
    rw [if_neg (by exact not_or.mpr ⟨h1, h2⟩), h3]
  · intro st c data h1 h2 h3
    rw [dispatch_create]
    simp only [handleCreate]
    rw [if_neg (by exact not_or.mpr ⟨h1, h2⟩), h3]
    simp

/-- C1 amended witness: with session "s" registered and connection 0
present, a CREATE for "s" with a different command binds the attachment
and replies `SESSION_OK` without touching the registry; the creating
CREATE replied `SESSION_OK` too. -/
theorem create_existing_attaches_witness :
    dispatch ⟨[([115], ⟨[115, 104], [], [], true⟩)], [(0, ⟨[]⟩)]⟩ 0
        ⟨MsgCreate, [115, 0, 0, 122, 122]⟩ false =
      ({ sessions := [([115], ⟨[115, 104], [], [], true⟩)]
         clients := bindClient [(0, ⟨[]⟩)] 0 (decodeCreate [115, 0, 0, 122, 122]).sessionID },
       [(0, Reply.sessionOK)]) ∧
    (dispatch ⟨[], [(0, ⟨[]⟩)]⟩ 0 ⟨MsgCreate, [115, 0, 0, 115, 104]⟩ true).2 =
      [(0, Reply.sessionOK)] :=
  ⟨create_existing_attaches.1 ⟨[([115], ⟨[115, 104], [], [], true⟩)], [(0, ⟨[]⟩)]⟩ 0
      [115, 0, 0, 122, 122] false ⟨[115, 104], [], [], true⟩
      (by decide) (by decide) (by decide),
   create_existing_attaches.2 ⟨[], [(0, ⟨[]⟩)]⟩ 0 [115, 0, 0, 115, 104]
      (by decide) (by decide) (by decide)⟩

/-- C2: an ATTACH frame binds the caller's attachment and replies
`SESSION_OK` exactly when the payload session ID is non-empty, present
in the registry and running; an empty payload gets
`SESSION_ERROR("empty session ID")`, an absent ID
`SESSION_ERROR("session not found: id")`, an exited session
`SESSION_ERROR("session not running: id")`, and in each error case the
whole state — the attachment included — is unchanged. The four cases
are exhaustive and mutually exclusive. -/
theorem attach_cases (st : ServerState) (c : Nat) (data : Bytes) (spawnOk : Bool) :
    (data = [] →
      dispatch st c ⟨MsgAttach, data⟩ spawnOk =
        (st, [(c, Reply.sessionError .emptySessionID)])) ∧
    (data ≠ [] → lookupSession st.sessions data = none →
      dispatch st c ⟨MsgAttach, data⟩ spawnOk =
        (st, [(c, Reply.sessionError (.notFound data))])) ∧
    (∀ s : Session, data ≠ [] → lookupSession st.sessions data = some s →
      s.running = false →
      dispatch st c ⟨MsgAttach, data⟩ spawnOk =
        (st, [(c, Reply.sessionError (.notRunning data))])) ∧
    (∀ s : Session, data ≠ [] → lookupSession st.sessions data = some s →
      s.running = true →
      dispatch st c ⟨MsgAttach, data⟩ spawnOk =
        ({ st with clients := bindClient st.clients c data },
         [(c, Reply.sessionOK)])) := by
  refine ⟨?_, ?_, ?_, ?_⟩
  · intro h
    rw [dispatch_attach]
    simp only [handleAttach, decodeAttach]
    rw [if_pos h]
  · intro h hn
    rw [dispatch_attach]
    simp only [handleAttach, decodeAttach]
    rw [if_neg h, hn]
  · intro s h hs hr
    rw [dispatch_attach]
    simp only [handleAttach, decodeAttach]
    rw [if_neg h, hs]
    simp [hr]
  · intro s h hs hr
    rw [dispatch_attach]
    simp only [handleAttach, decodeAttach]
    rw [if_neg h, hs]
    simp [hr]

/-- C2 witness: attaching to the running session "s" binds and replies
`SESSION_OK`; an empty ATTACH payload is rejected with the state
unchanged. -/
theorem attach_cases_witness :
    dispatch ⟨[([115], ⟨[99], [], [], true⟩)], [(0, ⟨[]⟩)]⟩ 0 ⟨MsgAttach, [115]⟩ true =
      ({ sessions := [([115], ⟨[99], [], [], true⟩)]
         clients := bindClient [(0, ⟨[]⟩)] 0 [115] }, [(0, Reply.sessionOK)]) ∧
    dispatch ⟨[], []⟩ 0 ⟨MsgAttach, []⟩ true =
      (⟨[], []⟩, [(0, Reply.sessionError .emptySessionID)]) :=
  ⟨(attach_cases ⟨[([115], ⟨[99], [], [], true⟩)], [(0, ⟨[]⟩)]⟩ 0 [115] true).2.2.2
      ⟨[99], [], [], true⟩ (by decide) (by decide) rfl,
   (attach_cases ⟨[], []⟩ 0 [] true).1 rfl⟩

/-- C10: a CREATE payload with fewer than three NUL-separated fields, or
an empty first (session ID) or third (command) field, is answered with
`SESSION_ERROR("invalid create request")` and the whole state — registry
and attachments — is unchanged. -/
theorem create_invalid_rejected (st : ServerState) (c : Nat) (data : Bytes)
    (spawnOk : Bool)
    (h : (splitNull data).length < 3 ∨ (splitNull data).getD 0 [] = [] ∨
      (splitNull data).getD 2 [] = []) :
    dispatch st c ⟨MsgCreate, data⟩ spawnOk =
      (st, [(c, Reply.sessionError .invalidCreate)]) := by
  have hvalid : (decodeCreate data).sessionID = [] ∨ (decodeCreate data).command = [] := by
    have hs : (decodeCreate data).sessionID = (splitNull data).getD 0 [] := rfl
    have hc : (decodeCreate data).command = (splitNull data).getD 2 [] := rfl
    rcases h with h | h | h
    · right; rw [hc]; exact List.getD_eq_default _ _ (by omega)
    · left; rw [hs, h]
    · right; rw [hc, h]
  rw [dispatch_create]
  simp only [handleCreate]
  rw [if_pos hvalid]

/-- C10 witness: the empty CREATE payload (no fields at all) is rejected
and changes nothing. -/
theorem create_invalid_rejected_witness :
    dispatch ⟨[], [(0, ⟨[]⟩)]⟩ 0 ⟨MsgCreate, []⟩ true =
      (⟨[], [(0, ⟨[]⟩)]⟩, [(0, Reply.sessionError .invalidCreate)]) :=
  create_invalid_rejected ⟨[], [(0, ⟨[]⟩)]⟩ 0 [] true (Or.inl (by decide))

/-- Looking up a key in a registry from which it was just filtered out
yields nothing. -/
theorem lookupSession_filter_ne (l : List (Bytes × Session)) (id : Bytes) :
    lookupSession (l.filter (fun p => decide (¬ p.1 = id))) id = none := by
  induction l with
  | nil => rfl
  | cons hd tl ih =>
    by_cases h : hd.1 = id
    · simpa [List.filter, h] using ih
    · simpa [List.filter, h, lookupSession] using ih

/-- C6 counterexample: connect a client, let it create session "s", then
let the session exit. The EXIT broadcast goes out and the session leaves
the registry, but the client's attachment still reads "s": the
spec's invariant `attached_session_id unset or in registry` is violated
and the attachment is not cleared. -/
theorem attachment_invariant_counterexample :
    attachedOK (run [Event.connect 0,
      Event.frame 0 ⟨MsgCreate, [115, 0, 0, 115, 104]⟩ true,
      Event.exit [115]]) = false ∧
    lookupClient (run [Event.connect 0,
      Event.frame 0 ⟨MsgCreate, [115, 0, 0, 115, 104]⟩ true,
      Event.exit [115]]).clients 0 = some ⟨[115]⟩ ∧
    (run [Event.connect 0,
      Event.frame 0 ⟨MsgCreate, [115, 0, 0, 115, 104]⟩ true,
      Event.exit [115]]).sessions = [] := by
  decide

/-- C6 (amended): on session termination the broker broadcasts one EXIT
frame to every connection attached to that session and removes the
session from the registry, but it leaves every connection's attachment
field untouched — so a still-connected subscriber's attachment may keep
naming a session that is no longer in the registry. -/
theorem session_exit_keeps_attachments (st : ServerState) (id : Bytes) :
    (sessionWaitLoop st id).1.clients = st.clients ∧
    lookupSession (sessionWaitLoop st id).1.sessions id = none ∧
    (sessionWaitLoop st id).2 =
      (st.clients.filter (fun p => decide (p.2.sessionID = id))).map
        (fun p => (p.1, Reply.exitMsg)) :=
  ⟨rfl, lookupSession_filter_ne st.sessions id, rfl⟩

/-- C7: the claim (and the spec) require every agent-family variable to
be stripped when the daemon spawns a session's child, but the
`buildCleanEnv` in `internal/daemon/session.go` only appends
`TERM=xterm-256color` and removes nothing: a `CLAUDE_`-prefixed secret
survives into the child. The sibling `buildCleanEnv` in
`internal/terminal/pane.go` does strip it, which is the documented
behaviour — the daemon path contradicts the function's own name and the
spec's stated intent. -/
theorem daemon_env_keeps_agent_vars :
    DaemonSession.buildCleanEnv [("CLAUDE_API_KEY", "secret")] =
      [("CLAUDE_API_KEY", "secret"), ("TERM", "xterm-256color")] ∧
    Pane.isAgentKey "CLAUDE_API_KEY" = true ∧
    Pane.buildCleanEnv [("CLAUDE_API_KEY", "secret")] "" =
      [("TERM", "xterm-256color")] :=
  ⟨rfl, by decide, by decide⟩

/-- Updating a ticket patches the first ticket carrying the id and
leaves lookups of that id pointing at the patched ticket. -/
theorem getTicket_updateTicket (ts : List Ticket) (tid : String) (p : TicketPatch)
    (now : String) :
    getTicket (updateTicket ts tid p now) tid =
      (getTicket ts tid).map (fun t => applyPatch t p now) := by
  induction ts with
  | nil => rfl
  | cons t rest ih =>
    by_cases h : t.id = tid
    · subst h
      simp [getTicket, updateTicket, List.find?_cons, applyPatch]
    · simp [getTicket, updateTicket, List.find?_cons, h]
      exact ih

/-- Whatever branch `startTicketWork` takes on a present ticket, its
effect on the board is one `updateTicket` whose patch stamps
`startedAt := now` and leaves `completedAt` alone. -/
theorem startTicketWork_as_update (ts : List Ticket) (tid now : String)
    (worktreeOk : Bool) (wtPath branch base : String) (t : Ticket)
    (h : getTicket ts tid = some t) :
    ∃ p1 : TicketPatch, p1.startedAt = some now ∧ p1.completedAt = none ∧
      startTicketWork ts tid now worktreeOk wtPath branch base =
        updateTicket ts tid p1 now := by
  simp only [startTicketWork, h]
  by_cases hw : t.worktreePath = none
  · rw [if_pos hw]
    cases worktreeOk
    · exact ⟨{ status := some .inProgress, startedAt := some now }, rfl, rfl, by simp⟩
    · exact ⟨{ worktreePath := some wtPath, branchName := some branch
               baseBranch := some base, status := some .inProgress
               startedAt := some now }, rfl, rfl, by simp⟩
  · rw [if_neg hw]
    exact ⟨_, rfl, rfl, rfl⟩

/-- C8 counterexample: a ticket that reached done with
`startedAt = "T1"` and is then moved back to in_progress through the
workflow comes out with `startedAt = "T3"` — the already-set timestamp
is overwritten by the re-transition, against the claim's "once set,
neither timestamp is ever overwritten by any later move". -/
theorem startedAt_overwritten_counterexample :
    getTicket (moveTicketWithWorkflow
        [⟨"t1", "Fix", .done, none, none, none, "C", "U", some "T1", some "T2"⟩]
        "t1" .inProgress "T3" false "" "" "") "t1" =
      some ⟨"t1", "Fix", .inProgress, none, none, none, "C", "T3", some "T3", some "T2"⟩ ∧
    some "T3" ≠ some "T1" := by
  exact ⟨rfl, by decide⟩

/-- C8 (amended): `BoardStore.moveTicket` stamps `startedAt` on the
first transition to in_progress and `completedAt` on the first
transition to done and never overwrites either (the moved ticket's
timestamps are exactly the old ones unless they were unset);
`completedAt` is also never touched by the workflow's
`startTicketWork`; but `startTicketWork` — which
`moveTicketWithWorkflow` uses for every transition into in_progress
from another status — sets `startedAt` to the current time
unconditionally, so a re-transition into in_progress overwrites a
previously set `startedAt`. -/
theorem move_sets_timestamps_once :
    (∀ (ts : List Ticket) (tid : String) (status : TicketStatus) (now : String)
        (t : Ticket), getTicket ts tid = some t →
      ∃ t', getTicket (moveTicket ts tid status now) tid = some t' ∧
        t'.startedAt =
          (if status = .inProgress ∧ t.startedAt = none then some now else t.startedAt) ∧
        t'.completedAt =
          (if status = .done ∧ t.completedAt = none then some now else t.completedAt)) ∧
    (∀ (ts : List Ticket) (tid now : String) (worktreeOk : Bool)
        (wtPath branch base : String) (t : Ticket), getTicket ts tid = some t →
      ∃ t', getTicket (startTicketWork ts tid now worktreeOk wtPath branch base) tid =
          some t' ∧
        t'.startedAt = some now ∧ t'.completedAt = t.completedAt) := by
  constructor
  · intro ts tid status now t h
    have hg : getTicket (moveTicket ts tid status now) tid =
        some (applyPatch t
          { status := some status
            startedAt :=
              if status = .inProgress ∧ t.startedAt = none then some now else none
            completedAt :=
              if status = .done ∧ t.completedAt = none then some now else none } now) := by
      simp only [moveTicket, h]
      rw [getTicket_updateTicket, h]
      rfl
    refine ⟨_, hg, ?_, ?_⟩
    · by_cases hs : status = .inProgress ∧ t.startedAt = none <;>
        simp [applyPatch, hs]
    · by_cases hc : status = .done ∧ t.completedAt = none <;>
        simp [applyPatch, hc]
  · intro ts tid now worktreeOk wtPath branch base t h
    obtain ⟨p1, hps, hpc, heq⟩ :=
      startTicketWork_as_update ts tid now worktreeOk wtPath branch base t h
    refine ⟨applyPatch t p1 now, ?_, ?_, ?_⟩
    · rw [heq, getTicket_updateTicket, h]
      rfl
    · simp [applyPatch, hps]
    · simp [applyPatch, hpc]

/-- C8 amended witness: a first move of a backlog ticket to in_progress
stamps `startedAt := "T1"`; running `startTicketWork` on it again keeps
`completedAt` and restamps `startedAt`. -/
theorem move_sets_timestamps_once_witness :
    (∃ t', getTicket (moveTicket
        [⟨"t1", "Fix", .backlog, none, none, none, "C", "C", none, none⟩]
        "t1" .inProgress "T1") "t1" = some t' ∧
      t'.startedAt = (if TicketStatus.inProgress = .inProgress ∧
          (none : Option String) = none then some "T1" else none) ∧
      t'.completedAt = (if TicketStatus.inProgress = .done ∧
          (none : Option String) = none then some "T1" else none)) ∧
    (∃ t', getTicket (startTicketWork
        [⟨"t1", "Fix", .inProgress, none, none, none, "C", "T1", some "T1", none⟩]
        "t1" "T2" false "" "" "") "t1" = some t' ∧
      t'.startedAt = some "T2" ∧ t'.completedAt = none) :=
  ⟨move_sets_timestamps_once.1
      [⟨"t1", "Fix", .backlog, none, none, none, "C", "C", none, none⟩]
      "t1" .inProgress "T1"
      ⟨"t1", "Fix", .backlog, none, none, none, "C", "C", none, none⟩ rfl,
   move_sets_timestamps_once.2
      [⟨"t1", "Fix", .inProgress, none, none, none, "C", "T1", some "T1", none⟩]
      "t1" "T2" false "" "" ""
      ⟨"t1", "Fix", .inProgress, none, none, none, "C", "T1", some "T1", none⟩ rfl⟩

/-- C9: `load` is total over every observable state of the board file —
missing file, failing read, failing parse, or parsed value with missing
fields — and always returns a board whose columns are non-empty
(the three defaults exactly when columns were missing or empty), whose
settings default when missing, and whose tickets default to the empty
array when missing; every failure path yields `createBoard("OpenKanban")`.
Settings presence and tickets being an array hold by the return type. -/
theorem load_total_valid_board :
    (∀ (file : BoardFile) (uuid : String), (load file uuid).columns ≠ []) ∧
    (∀ uuid : String,
      load .absent uuid = createBoard uuid "OpenKanban" ∧
      load .readFails uuid = createBoard uuid "OpenKanban" ∧
      load .parseFails uuid = createBoard uuid "OpenKanban") ∧
    (∀ (p : ParsedBoard) (uuid : String),
      (p.columns = none ∨ p.columns = some [] →
        (load (.parsed p) uuid).columns = DEFAULT_COLUMNS) ∧
      (∀ cs, p.columns = some cs → cs ≠ [] →
        (load (.parsed p) uuid).columns = cs) ∧
      (load (.parsed p) uuid).settings = p.settings.getD DEFAULT_SETTINGS ∧
      (load (.parsed p) uuid).tickets = p.tickets.getD []) := by
  refine ⟨?_, fun _ => ⟨rfl, rfl, rfl⟩, ?_⟩
  · intro file uuid
    match file with
    | .absent | .readFails | .parseFails => simp [load, createBoard, DEFAULT_COLUMNS]
    | .parsed p =>
      match hc : p.columns with
      | none => simp [load, hc, DEFAULT_COLUMNS]
      | some cs =>
        by_cases h : cs.length = 0
        · simp [load, hc, h, DEFAULT_COLUMNS]
        · simp only [load, hc, if_neg h]
          exact fun hnil => h (by simp [hnil])
  · intro p uuid
    refine ⟨?_, ?_, rfl, rfl⟩
    · rintro (hc | hc) <;> simp [load, hc]
    · intro cs hc hne
      simp [load, hc, List.length_eq_zero, hne]

/-- C9 witness: a parse result with every field missing loads as a board
with the three default columns, default settings and no tickets. -/
theorem load_total_valid_board_witness :
    (load (.parsed ⟨none, none, none, none, none⟩) "u").columns ≠ [] ∧
    (load (.parsed ⟨none, none, none, none, none⟩) "u").columns = DEFAULT_COLUMNS :=
  ⟨load_total_valid_board.1 (.parsed ⟨none, none, none, none, none⟩) "u",
   (load_total_valid_board.2.2 ⟨none, none, none, none, none⟩ "u").1 (Or.inl rfl)⟩

end OpenKanban
